import Mathlib

/-!
Shallow embedding of the book-review service (`app.py`): a Flask app over a
relational store of books and reviews, fronted by a Redis cache used
cache-aside with a fixed 10-second TTL and invalidation-on-write.

Modelling conventions:
* machine state is passed explicitly: the persistent store is a `Store`,
  the Redis client is a `Redis` (a key/value map with absolute expiry
  instants plus a reachability flag), and wall-clock time is a `Nat`
  parameter `now`;
* Python runtime values that the handlers inspect dynamically
  (`publication_year`, `rating`) are embedded as `PyVal`; `int(v)` is
  `PyVal.toIntConv` (distinguishing `ValueError` from `TypeError` exactly
  as CPython does on these value shapes);
* JSON request bodies are embedded as structures of optional fields
  (absent key = `none`); string-valued fields are typed as `String`;
* `str.strip()` is `pyStrip`, `str(n)` for a natural id is
  `natDecimal`, and ISO timestamps are represented by their underlying
  `Nat` instant.
-/

namespace BookApp

/-- Python runtime value, restricted to the shapes the handlers inspect. -/
inductive PyVal where
  | pInt (n : Int)
  | pStr (s : String)
  | pBool (b : Bool)
  | pNone
deriving DecidableEq

/-- Python truthiness (`if v:`) on the embedded value shapes. -/
def PyVal.truthy : PyVal → Bool
  | .pInt n => n != 0
  | .pStr s => s != ""
  | .pBool b => b
  | .pNone => false

/-- Result of CPython `int(v)`: a value, a `ValueError`, or a `TypeError`. -/
inductive IntConv where
  | ok (n : Int)
  | valueError
  | typeError
deriving DecidableEq

/-- Embedding of `str.strip()`: drop whitespace from both ends. -/
def pyStrip (s : String) : String :=
  String.mk (((s.data.dropWhile Char.isWhitespace).reverse.dropWhile Char.isWhitespace).reverse)

/-- Parse a nonempty all-digit character list as a natural number. -/
def parseDigits (cs : List Char) : Option Nat :=
  if cs.isEmpty then Option.none
  else if cs.all Char.isDigit then
    some (cs.foldl (fun a c => a * 10 + (c.toNat - 48)) 0)
  else Option.none

/-- CPython `int(s)` for a string: strip whitespace, optional sign, digits. -/
def pyIntOfString (s : String) : Option Int :=
  match (pyStrip s).data with
  | [] => Option.none
  | '-' :: rest => (parseDigits rest).map (fun n => -(n : Int))
  | '+' :: rest => (parseDigits rest).map (fun n => (n : Int))
  | cs => (parseDigits cs).map (fun n => (n : Int))

/-- CPython `int(v)` on the embedded value shapes: ints pass through, bools
coerce to 0/1, strings are parsed (`ValueError` on failure), `None` raises
`TypeError`. -/
def PyVal.toIntConv : PyVal → IntConv
  | .pInt n => .ok n
  | .pBool b => .ok (if b then 1 else 0)
  | .pStr s =>
    match pyIntOfString s with
    | some n => .ok n
    | Option.none => .valueError
  | .pNone => .typeError

/-- Decimal digit to its character, as `str()` renders it. -/
def digitChar : Nat → Char
  | 0 => '0'
  | 1 => '1'
  | 2 => '2'
  | 3 => '3'
  | 4 => '4'
  | 5 => '5'
  | 6 => '6'
  | 7 => '7'
  | 8 => '8'
  | 9 => '9'
  | _ => '*'

/-- Inverse of `digitChar` on decimal digits. -/
def charDigit (c : Char) : Nat := c.toNat - 48

/-- Base-10 digits of `n`, least significant first, with explicit fuel so
that the definition is structurally recursive and kernel-reducible. -/
def digitsRevAux : Nat → Nat → List Nat
  | _, 0 => []
  | 0, _ + 1 => []
  | fuel + 1, n + 1 => (n + 1) % 10 :: digitsRevAux fuel ((n + 1) / 10)

/-- Base-10 digits of `n`, least significant first (`n` itself is enough fuel). -/
def digitsRev (n : Nat) : List Nat := digitsRevAux n n

/-- Evaluate a little-endian digit list back to a natural number. -/
def ofDigitsRev : List Nat → Nat
  | [] => 0
  | d :: ds => d + 10 * ofDigitsRev ds

/-- Decimal rendering of a natural number, the embedding of Python `str(n)`
for the nonnegative ids used in cache keys and messages. -/
def natDecimal (n : Nat) : String :=
  if n = 0 then "0" else String.mk (((digitsRev n).map digitChar).reverse)

/-- Parse back a decimal rendering; left inverse of `natDecimal`. -/
def decodeDecimal (s : String) : Nat := ofDigitsRev (s.data.reverse.map charDigit)

/-- Persisted `Book` row (`created_at` is the creation instant). -/
structure Book where
  id : Nat
  title : String
  author : String
  isbn : Option String
  publication_year : Option PyVal
  created_at : Nat
deriving DecidableEq

/-- Persisted `Review` row. -/
structure Review where
  id : Nat
  book_id : Nat
  reviewer_name : String
  rating : Int
  review_text : Option String
  created_at : Nat
deriving DecidableEq

/-- Serialized book shape produced by `Book.to_dict`. -/
structure BookView where
  id : Nat
  title : String
  author : String
  isbn : Option String
  publication_year : Option PyVal
  created_at : Nat
deriving DecidableEq

/-- Serialized review shape produced by `Review.to_dict`. -/
structure ReviewView where
  id : Nat
  book_id : Nat
  reviewer_name : String
  rating : Int
  review_text : Option String
  created_at : Nat
deriving DecidableEq

/-- Embedding of `Book.to_dict`. -/
def Book.to_dict (b : Book) : BookView :=
  ⟨b.id, b.title, b.author, b.isbn, b.publication_year, b.created_at⟩

/-- Embedding of `Review.to_dict`. -/
def Review.to_dict (rv : Review) : ReviewView :=
  ⟨rv.id, rv.book_id, rv.reviewer_name, rv.rating, rv.review_text, rv.created_at⟩

/-- Persistent relational store: the two tables plus the auto-increment
counters that assign primary keys. -/
structure Store where
  books : List Book
  reviews : List Review
  nextBookId : Nat
  nextReviewId : Nat
deriving DecidableEq

/-- Embedding of `db.session.get(Book, id)`. -/
def Store.getBook (st : Store) (id : Nat) : Option Book :=
  st.books.find? (fun b => b.id == id)

/-- Cached JSON blob: either a serialized book list or a serialized review
list (the two shapes the app ever writes). -/
inductive CacheVal where
  | books (l : List BookView)
  | reviews (l : List ReviewView)
deriving DecidableEq

/-- Cache entry with its absolute expiry instant (`setex` with TTL `e` at
time `t` yields expiry `t + e`). -/
structure CacheEntry where
  val : CacheVal
  expiresAt : Nat
deriving DecidableEq

/-- Redis client state: the keyspace plus a reachability flag; every
command on an unreachable client raises. -/
structure Redis where
  store : String → Option CacheEntry
  reachable : Bool

/-- Cache key `books:all` for the full book collection. -/
def booksAllKey : String := "books:all"

/-- Cache key `reviews:book:<book_id>` for the review collection of one book. -/
def reviewsKey (book_id : Nat) : String := "reviews:book:" ++ natDecimal book_id

/-- Raw `redis_client.get` at time `now`: a key is visible while
`now < expiresAt`. -/
def redisGet (r : Redis) (now : Nat) (key : String) : Option CacheVal :=
  match r.store key with
  | some e => if now < e.expiresAt then some e.val else Option.none
  | Option.none => Option.none

/-- Embedding of `get_from_cache`. The `redis_client.ttl` call sits on the
line BEFORE the `try:` block in the source, so on an unreachable client it
raises and the error escapes the function (`Except.error`); errors from the
`redis_client.get` inside the `try` are swallowed into a miss. -/
def get_from_cache (r : Redis) (now : Nat) (key : String) :
    Except Unit (Option CacheVal) :=
  if r.reachable then Except.ok (redisGet r now key) else Except.error ()

/-- Embedding of `set_cache`: `setex` with a default 10-unit expiry, every
error swallowed (an unreachable client leaves the cache unchanged). -/
def set_cache (r : Redis) (now : Nat) (key : String) (v : CacheVal)
    (expire_time : Nat := 10) : Redis :=
  if r.reachable then
    { r with store := fun k => if k = key then some ⟨v, now + expire_time⟩ else r.store k }
  else r

/-- Embedding of `invalidate_cache`: exact-key `delete`, every error
swallowed. -/
def invalidate_cache (r : Redis) (key : String) : Redis :=
  if r.reachable then
    { r with store := fun k => if k = key then Option.none else r.store k }
  else r

/-- HTTP responses the four modelled handlers can produce. -/
inductive Resp where
  | okBooks (body : CacheVal) (source : String)
  | okReviews (book_id : Nat) (book_title : String) (body : CacheVal) (source : String)
  | createdBook (message : String) (book : BookView)
  | createdReview (message : String) (review : ReviewView)
  | badRequest (message : String)
  | notFound (message : String)
  | serverError (message : String)
deriving DecidableEq

/-- HTTP status code of a response. -/
def Resp.status : Resp → Nat
  | .okBooks .. => 200
  | .okReviews .. => 200
  | .createdBook .. => 201
  | .createdReview .. => 201
  | .badRequest _ => 400
  | .notFound _ => 404
  | .serverError _ => 500

/-- Error/not-found message carried by a response (`""` on the 2xx shapes). -/
def Resp.message : Resp → String
  | .okBooks .. => ""
  | .okReviews .. => ""
  | .createdBook m _ => m
  | .createdReview m _ => m
  | .badRequest m => m
  | .notFound m => m
  | .serverError m => m

/-- Embedding of the `GET /books` handler. A propagating cache error (the
`ttl` call outside the `try`) is caught by the generic handler-level
`except Exception` and becomes a 500. -/
def get_books (st : Store) (r : Redis) (now : Nat) : Resp × Redis :=
  match get_from_cache r now booksAllKey with
  | Except.error _ => (.serverError "Failed to fetch books", r)
  | Except.ok (some v) => (.okBooks v "cache", r)
  | Except.ok Option.none =>
    let books_data := st.books.map Book.to_dict
    let r1 := set_cache r now booksAllKey (.books books_data)
    (.okBooks (.books books_data) "database", r1)

/-- Parsed JSON body of `POST /books` (absent key = `none`). -/
structure AddBookReq where
  title : Option String
  author : Option String
  isbn : Option String
  publication_year : Option PyVal
deriving DecidableEq

/-- Parsed JSON body of `POST /books/&lt;id&gt;/reviews` (absent key = `none`). -/
structure AddReviewReq where
  reviewer_name : Option String
  rating : Option PyVal
  review_text : Option String
deriving DecidableEq

/-- Truthiness of the parsed `POST /books` body (`if not data:`). -/
def AddBookReq.isEmptyDict (d : AddBookReq) : Bool :=
  d.title.isNone && d.author.isNone && d.isbn.isNone && d.publication_year.isNone

/-- Truthiness of the parsed review body (`if not data:`). -/
def AddReviewReq.isEmptyDict (d : AddReviewReq) : Bool :=
  d.reviewer_name.isNone && d.rating.isNone && d.review_text.isNone

/-- Validation of a present required field (`not data[field].strip()`). -/
def requiredFieldSome (name s : String) : Except Resp String :=
  if pyStrip s = "" then
    Except.error (.badRequest ("\x27" ++ name ++ "\x27 is required and cannot be empty"))
  else Except.ok s

/-- Embedding of the required-field loop
`if field not in data or not data[field].strip()`. -/
def requiredField (name : String) : Option String → Except Resp String
  | Option.none =>
    Except.error (.badRequest ("\x27" ++ name ++ "\x27 is required and cannot be empty"))
  | some s => requiredFieldSome name s

/-- Body of the `publication_year` validation for a present key: skipped
when the value is falsy; otherwise `int(v)` with `ValueError` mapped to
400, an in-range result written back into the body, an out-of-range
result mapped to 400, and a `TypeError` escaping to the generic handler-level
500. -/
def validateYearSome (currentYear : Int) (v : PyVal) : Except Resp (Option PyVal) :=
  if v.truthy then
    match v.toIntConv with
    | .ok y =>
      if y < 0 ∨ y > currentYear + 1 then
        Except.error (.badRequest "Invalid publication year")
      else Except.ok (some (.pInt y))
    | .valueError =>
      Except.error (.badRequest "Publication year must be a valid integer")
    | .typeError => Except.error (.serverError "Failed to add book")
  else Except.ok (some v)

/-- Embedding of the `publication_year` validation block
(present-and-truthy guard on the publication_year key). -/
def validateYear (currentYear : Int) : Option PyVal → Except Resp (Option PyVal)
  | Option.none => Except.ok Option.none
  | some v => validateYearSome currentYear v

/-- Embedding of the Python idiom `s.strip() or None`. -/
def stripOrNone (s : String) : Option String :=
  if pyStrip s = "" then Option.none else some (pyStrip s)

/-- Does inserting a row with this isbn violate the unique
constraint of the store on the isbn column? (`NULL`s never conflict.) -/
def isbnConflict (st : Store) : Option String → Bool
  | some s => st.books.any (fun b => b.isbn == some s)
  | Option.none => false

/-- Tail of the `POST /books` handler once `title`, `author` and the year
have validated: duplicate pre-check on the RAW isbn (skipped when absent
or `""`), then insert with the STRIPPED isbn — a commit-time
unique-constraint violation (possible when the raw and stripped isbn
differ) is the generic 500 path with rollback. On success the `books:all`
key is invalidated. -/
def insertBook (st : Store) (r : Redis) (now : Nat) (t a : String)
    (year : Option PyVal) (rawIsbn : String) : Resp × Store × Redis :=
  if rawIsbn ≠ "" ∧ st.books.any (fun b => b.isbn == some rawIsbn) then
    (.badRequest ("Book with ISBN \x27" ++ rawIsbn ++ "\x27 already exists"), st, r)
  else if isbnConflict st (stripOrNone rawIsbn) then
    (.serverError "Failed to add book", st, r)
  else
    (.createdBook "Book added successfully"
        (Book.to_dict ⟨st.nextBookId, pyStrip t, pyStrip a, stripOrNone rawIsbn, year, now⟩),
     ⟨st.books ++ [⟨st.nextBookId, pyStrip t, pyStrip a, stripOrNone rawIsbn, year, now⟩],
      st.reviews, st.nextBookId + 1, st.nextReviewId⟩,
     invalidate_cache r booksAllKey)

/-- Embedding of the `POST /books` handler, in source order: empty
body, required `title`/`author`, `publication_year` validation, then the
isbn checks and insert of `insertBook`. -/
def add_book (st : Store) (r : Redis) (now : Nat) (currentYear : Int)
    (data : AddBookReq) : Resp × Store × Redis :=
  if data.isEmptyDict then (.badRequest "No JSON data provided", st, r)
  else
    match requiredField "title" data.title with
    | Except.error e => (e, st, r)
    | Except.ok t =>
      match requiredField "author" data.author with
      | Except.error e => (e, st, r)
      | Except.ok a =>
        match validateYear currentYear data.publication_year with
        | Except.error e => (e, st, r)
        | Except.ok year => insertBook st r now t a year (data.isbn.getD "")

/-- Reviews of one book as the store returns them:
`filter_by(book_id=...)` then `order_by(created_at.desc())`. -/
def listReviewsForBook (st : Store) (book_id : Nat) : List Review :=
  (st.reviews.filter (fun rv => rv.book_id == book_id)).mergeSort
    (fun x y => decide (y.created_at ≤ x.created_at))

/-- Embedding of the `GET /books/&lt;id&gt;/reviews` handler: store existence
check FIRST (404 before any cache access), then cache-aside read of the
review collection with repopulation on miss; `book_title` always comes
from the store row. -/
def get_book_reviews (st : Store) (r : Redis) (now : Nat) (book_id : Nat) :
    Resp × Redis :=
  match st.getBook book_id with
  | Option.none =>
    (.notFound ("Book with id " ++ natDecimal book_id ++ " not found"), r)
  | some book =>
    match get_from_cache r now (reviewsKey book_id) with
    | Except.error _ => (.serverError "Failed to fetch reviews", r)
    | Except.ok (some v) => (.okReviews book_id book.title v "cache", r)
    | Except.ok Option.none =>
      let reviews_data := (listReviewsForBook st book_id).map Review.to_dict
      let r1 := set_cache r now (reviewsKey book_id) (.reviews reviews_data)
      (.okReviews book_id book.title (.reviews reviews_data) "database", r1)

/-- Embedding of the rating validation block: `int(rating)` with both
`ValueError` and `TypeError` mapped to 400, then the 1–5 range check. -/
def ratingOf (v : PyVal) : Except Resp Int :=
  match v.toIntConv with
  | .valueError => Except.error (.badRequest "Rating must be a valid integer between 1 and 5")
  | .typeError => Except.error (.badRequest "Rating must be a valid integer between 1 and 5")
  | .ok rating =>
    if rating < 1 ∨ rating > 5 then
      Except.error (.badRequest "Rating must be between 1 and 5")
    else Except.ok rating

/-- Body validation of `POST /books/&lt;id&gt;/reviews`, in source order:
required keys, blank reviewer name, then the rating checks of `ratingOf`;
returns the reviewer name and the parsed rating. -/
def reviewBodyCheck (rn : Option String) (rv : Option PyVal) :
    Except Resp (String × Int) :=
  match rn with
  | Option.none => Except.error (.badRequest "\x27reviewer_name\x27 is required")
  | some name =>
    match rv with
    | Option.none => Except.error (.badRequest "\x27rating\x27 is required")
    | some ratingVal =>
      if pyStrip name = "" then
        Except.error (.badRequest "Reviewer name cannot be empty")
      else
        match ratingOf ratingVal with
        | Except.error e => Except.error e
        | Except.ok rating => Except.ok (name, rating)

/-- Embedding of the `POST /books/&lt;id&gt;/reviews` handler, in source order:
store existence check (404), empty body, the body validation of
`reviewBodyCheck`, insert, then invalidation of the reviews key of that book. -/
def add_book_review (st : Store) (r : Redis) (now : Nat) (book_id : Nat)
    (data : AddReviewReq) : Resp × Store × Redis :=
  match st.getBook book_id with
  | Option.none =>
    (.notFound ("Book with id " ++ natDecimal book_id ++ " not found"), st, r)
  | some _ =>
    if data.isEmptyDict then (.badRequest "No JSON data provided", st, r)
    else
      match reviewBodyCheck data.reviewer_name data.rating with
      | Except.error e => (e, st, r)
      | Except.ok (name, rating) =>
        (.createdReview "Review added successfully"
            (Review.to_dict ⟨st.nextReviewId, book_id, pyStrip name, rating,
              stripOrNone (data.review_text.getD ""), now⟩),
         ⟨st.books, st.reviews ++ [⟨st.nextReviewId, book_id, pyStrip name, rating,
              stripOrNone (data.review_text.getD ""), now⟩],
          st.nextBookId, st.nextReviewId + 1⟩,
         invalidate_cache r (reviewsKey book_id))

/-- Empty store fixture used by concrete instantiations. -/
def store0 : Store := ⟨[], [], 1, 1⟩

/-- Store fixture holding one book with id 1. -/
def store1 : Store := ⟨[⟨1, "B", "A", Option.none, Option.none, 0⟩], [], 2, 1⟩

/-- Reachable Redis fixture with an empty keyspace. -/
def redis0 : Redis := ⟨fun _ => Option.none, true⟩

/-- Minimal valid `POST /books` body fixture. -/
def bookReq0 : AddBookReq := ⟨some "1984", some "G. Orwell", Option.none, Option.none⟩

/-- Minimal valid review body fixture. -/
def reviewReq0 : AddReviewReq := ⟨some "R", some (.pInt 5), Option.none⟩

theorem ofDigitsRev_digitsRevAux (fuel : Nat) :
    ∀ n : Nat, n ≤ fuel → ofDigitsRev (digitsRevAux fuel n) = n := by
  induction fuel with
  | zero =>
    intro n hn
    interval_cases n
    simp [digitsRevAux, ofDigitsRev]
  | succ f ih =>
    intro n hn
    cases n with
    | zero => simp [digitsRevAux, ofDigitsRev]
    | succ m =>
      have hfuel : (m + 1) / 10 ≤ f := by
        have := Nat.div_lt_self (Nat.succ_pos m) (by omega : 1 < 10)
        omega
      simp only [digitsRevAux, ofDigitsRev, ih _ hfuel]
      omega

theorem digitsRevAux_lt (fuel : Nat) :
    ∀ n : Nat, ∀ d ∈ digitsRevAux fuel n, d < 10 := by
  induction fuel with
  | zero =>
    intro n d hd
    cases n <;> simp [digitsRevAux] at hd
  | succ f ih =>
    intro n d hd
    cases n with
    | zero => simp [digitsRevAux] at hd
    | succ m =>
      simp only [digitsRevAux, List.mem_cons] at hd
      rcases hd with h | h
      · omega
      · exact ih _ _ h

theorem charDigit_digitChar {d : Nat} (h : d < 10) : charDigit (digitChar d) = d := by
  interval_cases d <;> rfl

theorem decodeDecimal_natDecimal (n : Nat) : decodeDecimal (natDecimal n) = n := by
  by_cases h : n = 0
  · subst h; rfl
  · simp only [natDecimal, h, if_false, decodeDecimal]
    rw [List.reverse_reverse]
    have hmap : ((digitsRev n).map digitChar).map charDigit = digitsRev n := by
      rw [List.map_map]
      have : ∀ d ∈ digitsRev n, (charDigit ∘ digitChar) d = d := by
        intro d hd
        exact charDigit_digitChar (digitsRevAux_lt n n d hd)
      calc ((digitsRev n).map (charDigit ∘ digitChar)) = (digitsRev n).map id := by
              exact List.map_congr_left this
        _ = digitsRev n := List.map_id _
    rw [hmap]
    exact ofDigitsRev_digitsRevAux n n le_rfl

theorem natDecimal_injective : Function.Injective natDecimal := by
  intro a b h
  have ha := decodeDecimal_natDecimal a
  have hb := decodeDecimal_natDecimal b
  rw [h] at ha
  rw [hb] at ha
  exact ha.symm

theorem reviewsKey_injective : Function.Injective reviewsKey := by
  intro a b h
  have h2 : "reviews:book:".data ++ (natDecimal a).data
      = "reviews:book:".data ++ (natDecimal b).data := by
    have := congrArg String.data h
    simpa [reviewsKey, String.data_append] using this
  exact natDecimal_injective (String.ext (List.append_cancel_left h2))

theorem booksAllKey_ne_reviewsKey (i : Nat) : booksAllKey ≠ reviewsKey i := by
  intro h
  have h2 := congrArg String.length h
  simp only [booksAllKey, reviewsKey, String.length_append] at h2
  have e1 : ("books:all" : String).length = 9 := rfl
  have e2 : ("reviews:book:" : String).length = 13 := rfl
  rw [e1, e2] at h2
  omega

theorem invalidate_cache_frame (r : Redis) (key k : String) (hk : k ≠ key) :
    (invalidate_cache r key).store k = r.store k := by
  unfold invalidate_cache
  split
  · simp [hk]
  · rfl

theorem invalidate_cache_deletes (r : Redis) (key : String) (h : r.reachable = true) :
    (invalidate_cache r key).store key = Option.none := by
  unfold invalidate_cache
  rw [h]
  simp

theorem invalidate_cache_reachable (r : Redis) (key : String) :
    (invalidate_cache r key).reachable = r.reachable := by
  unfold invalidate_cache
  split <;> rfl

theorem requiredField_ok {n : String} {o : Option String} {s : String}
    (h : requiredField n o = Except.ok s) : o = some s ∧ pyStrip s ≠ "" := by
  cases o with
  | none => cases h
  | some t =>
    rw [show requiredField n (some t) = requiredFieldSome n t from rfl] at h
    unfold requiredFieldSome at h
    by_cases hs : pyStrip t = ""
    · rw [if_pos hs] at h
      cases h
    · rw [if_neg hs] at h
      cases h
      exact ⟨rfl, hs⟩

theorem requiredField_error {n : String} {o : Option String} {e : Resp}
    (h : requiredField n o = Except.error e) : ∃ m, e = Resp.badRequest m := by
  cases o with
  | none =>
    cases h
    exact ⟨_, rfl⟩
  | some t =>
    rw [show requiredField n (some t) = requiredFieldSome n t from rfl] at h
    unfold requiredFieldSome at h
    by_cases hs : pyStrip t = ""
    · rw [if_pos hs] at h
      cases h
      exact ⟨_, rfl⟩
    · rw [if_neg hs] at h
      cases h

theorem validateYear_none {cy : Int} {y : Option PyVal}
    (h : validateYear cy Option.none = Except.ok y) : y = Option.none := by
  cases h
  rfl

/-- Every validation-error exit of `validateYear` is a 400, except the
`TypeError` path which escapes to the generic 500. -/
theorem validateYear_error_status {cy : Int} {v : Option PyVal} {e : Resp}
    (h : validateYear cy v = Except.error e) :
    e.status = 400 ∨ e = Resp.serverError "Failed to add book" := by
  cases v with
  | none => cases h
  | some pv =>
    rw [show validateYear cy (some pv) = validateYearSome cy pv from rfl] at h
    unfold validateYearSome at h
    by_cases ht : pv.truthy = true
    · rw [if_pos ht] at h
      cases hc : pv.toIntConv with
      | ok y =>
        rw [hc] at h
        have h2 : (if y < 0 ∨ y > cy + 1 then
              Except.error (Resp.badRequest "Invalid publication year")
            else Except.ok (some (PyVal.pInt y))) = Except.error e := h
        by_cases hy : y < 0 ∨ y > cy + 1
        · rw [if_pos hy] at h2
          cases h2
          exact Or.inl rfl
        · rw [if_neg hy] at h2
          cases h2
      | valueError =>
        rw [hc] at h
        cases h
        exact Or.inl rfl
      | typeError =>
        rw [hc] at h
        cases h
        exact Or.inr rfl
    · rw [if_neg ht] at h
      cases h

/-- Inversion of a 201 from `insertBook`: both isbn checks passed and the
result is the success tuple. -/
theorem insertBook_success_shape (st : Store) (r : Redis) (now : Nat)
    (t a : String) (year : Option PyVal) (rawIsbn : String)
    (h : (insertBook st r now t a year rawIsbn).1.status = 201) :
    insertBook st r now t a year rawIsbn =
      (Resp.createdBook "Book added successfully"
          (Book.to_dict ⟨st.nextBookId, pyStrip t, pyStrip a, stripOrNone rawIsbn, year, now⟩),
       ⟨st.books ++ [⟨st.nextBookId, pyStrip t, pyStrip a, stripOrNone rawIsbn, year, now⟩],
        st.reviews, st.nextBookId + 1, st.nextReviewId⟩,
       invalidate_cache r booksAllKey) := by
  unfold insertBook at h ⊢
  by_cases hP : rawIsbn ≠ "" ∧ (st.books.any fun b => b.isbn == some rawIsbn) = true
  · rw [if_pos hP] at h
    simp [Resp.status] at h
  · rw [if_neg hP] at h ⊢
    by_cases hQ : isbnConflict st (stripOrNone rawIsbn) = true
    · rw [if_pos hQ] at h
      simp [Resp.status] at h
    · rw [if_neg hQ] at h ⊢

/-- Inversion of a successful `POST /books`: the request had a title and an
author, the year validated, and the handler returned the freshly inserted
row (stripped title/author, stripped-or-null isbn), appended it to the
store, and invalidated exactly `books:all`. -/
theorem add_book_success_shape (st : Store) (r : Redis) (now : Nat) (cy : Int)
    (data : AddBookReq)
    (h : (add_book st r now cy data).1.status = 201) :
    ∃ t a year,
      requiredField "title" data.title = Except.ok t ∧
      requiredField "author" data.author = Except.ok a ∧
      validateYear cy data.publication_year = Except.ok year ∧
      add_book st r now cy data =
        (Resp.createdBook "Book added successfully"
            (Book.to_dict ⟨st.nextBookId, pyStrip t, pyStrip a,
              stripOrNone (data.isbn.getD ""), year, now⟩),
         ⟨st.books ++ [⟨st.nextBookId, pyStrip t, pyStrip a,
              stripOrNone (data.isbn.getD ""), year, now⟩],
          st.reviews, st.nextBookId + 1, st.nextReviewId⟩,
         invalidate_cache r booksAllKey) := by
  revert h
  unfold add_book
  repeat' split
  all_goals intro h
  any_goals (simp [Resp.status] at h)
  any_goals
    (rename_i e heq
     rcases requiredField_error heq with ⟨m, rfl⟩
     simp [Resp.status] at h)
  any_goals
    (rename_i e heq
     rcases validateYear_error_status heq with h4 | rfl
     · have h5 : e.status = 201 := h
       rw [h5] at h4
       exact absurd h4 (by decide)
     · simp [Resp.status] at h)
  exact ⟨_, _, _, by assumption, by assumption, by assumption,
    insertBook_success_shape _ _ _ _ _ _ _ h⟩

/-- Every error exit of `ratingOf` is a 400. -/
theorem ratingOf_error {v : PyVal} {e : Resp} (h : ratingOf v = Except.error e) :
    ∃ m, e = Resp.badRequest m := by
  unfold ratingOf at h
  cases hc : v.toIntConv with
  | valueError =>
    rw [hc] at h
    cases h
    exact ⟨_, rfl⟩
  | typeError =>
    rw [hc] at h
    cases h
    exact ⟨_, rfl⟩
  | ok y =>
    rw [hc] at h
    have h2 : (if y < 1 ∨ y > 5 then
        (Except.error (Resp.badRequest "Rating must be between 1 and 5") : Except Resp Int)
      else Except.ok y) = Except.error e := h
    by_cases hy : y < 1 ∨ y > 5
    · rw [if_pos hy] at h2
      cases h2
      exact ⟨_, rfl⟩
    · rw [if_neg hy] at h2
      cases h2

/-- Every error exit of `reviewBodyCheck` is a 400. -/
theorem reviewBodyCheck_error {rn : Option String} {rv : Option PyVal} {e : Resp}
    (h : reviewBodyCheck rn rv = Except.error e) : ∃ m, e = Resp.badRequest m := by
  cases rn with
  | none =>
    cases h
    exact ⟨_, rfl⟩
  | some nm =>
    cases rv with
    | none =>
      cases h
      exact ⟨_, rfl⟩
    | some ratingVal =>
      have h2 : (if pyStrip nm = "" then
          (Except.error (Resp.badRequest "Reviewer name cannot be empty")
            : Except Resp (String × Int))
        else match ratingOf ratingVal with
          | Except.error e2 => Except.error e2
          | Except.ok rating => Except.ok (nm, rating)) = Except.error e := h
      by_cases hblank : pyStrip nm = ""
      · rw [if_pos hblank] at h2
        cases h2
        exact ⟨_, rfl⟩
      · rw [if_neg hblank] at h2
        cases hr : ratingOf ratingVal with
        | error e2 =>
          rw [hr] at h2
          cases h2
          exact ratingOf_error hr
        | ok rating2 =>
          rw [hr] at h2
          cases h2

/-- Inversion of a successful body validation: the reviewer name was the
one submitted. -/
theorem reviewBodyCheck_ok {rn : Option String} {rv : Option PyVal}
    {name : String} {rating : Int}
    (h : reviewBodyCheck rn rv = Except.ok (name, rating)) : rn = some name := by
  cases rn with
  | none => cases h
  | some nm =>
    cases rv with
    | none => cases h
    | some ratingVal =>
      have h2 : (if pyStrip nm = "" then
          (Except.error (Resp.badRequest "Reviewer name cannot be empty")
            : Except Resp (String × Int))
        else match ratingOf ratingVal with
          | Except.error e2 => Except.error e2
          | Except.ok rating2 => Except.ok (nm, rating2)) = Except.ok (name, rating) := h
      by_cases hblank : pyStrip nm = ""
      · rw [if_pos hblank] at h2
        cases h2
      · rw [if_neg hblank] at h2
        cases hr : ratingOf ratingVal with
        | error e2 =>
          rw [hr] at h2
          cases h2
        | ok rating2 =>
          rw [hr] at h2
          cases h2
          rfl

/-- Inversion of a successful `POST /books/&lt;id&gt;/reviews`: the book
exists, the body validated, and the handler appended the new review row
and invalidated exactly the reviews key of that book. -/
theorem add_review_success_shape (st : Store) (r : Redis) (now : Nat)
    (bid : Nat) (data : AddReviewReq)
    (h : (add_book_review st r now bid data).1.status = 201) :
    ∃ book name rating,
      st.getBook bid = some book ∧
      data.reviewer_name = some name ∧
      add_book_review st r now bid data =
        (Resp.createdReview "Review added successfully"
            (Review.to_dict ⟨st.nextReviewId, bid, pyStrip name, rating,
              stripOrNone (data.review_text.getD ""), now⟩),
         ⟨st.books, st.reviews ++ [⟨st.nextReviewId, bid, pyStrip name, rating,
              stripOrNone (data.review_text.getD ""), now⟩],
          st.nextBookId, st.nextReviewId + 1⟩,
         invalidate_cache r (reviewsKey bid)) := by
  revert h
  unfold add_book_review
  repeat' split
  all_goals intro h
  any_goals (simp [Resp.status] at h)
  any_goals
    (rename_i e heq
     rcases reviewBodyCheck_error heq with ⟨m, rfl⟩
     simp [Resp.status] at h)
  exact ⟨_, _, _, by assumption, reviewBodyCheck_ok (by assumption), rfl⟩

theorem set_cache_reachable (r : Redis) (now : Nat) (key : String)
    (v : CacheVal) (e : Nat) : (set_cache r now key v e).reachable = r.reachable := by
  unfold set_cache
  split <;> rfl

theorem set_cache_hit (r : Redis) (now : Nat) (key : String) (v : CacheVal)
    (e : Nat) (h : r.reachable = true) :
    (set_cache r now key v e).store key = some ⟨v, now + e⟩ := by
  unfold set_cache
  rw [h]
  simp

/-- C1: the spec claims every cache-layer error (read, write, invalidate)
is swallowed and never changes the HTTP outcome, in particular that
`GET /books` with an unreachable cache still returns 200 from the store.
The code violates this for cache READS: `get_from_cache` calls
`redis_client.ttl(BOOKS_CACHE_KEY)` on the line BEFORE its `try:` block
(app.py:136), so with an unreachable cache that call raises, the error
escapes `get_from_cache`, and the generic `except Exception` of the handler
turns the request into a 500 — for every store state and time. -/
theorem c1_unreachable_cache_get_books_500 (st : Store)
    (cache : String → Option CacheEntry) (now : Nat) :
    (get_books st ⟨cache, false⟩ now).1 = Resp.serverError "Failed to fetch books" ∧
    (get_books st ⟨cache, false⟩ now).1.status = 500 := by
  exact ⟨rfl, rfl⟩

/-- C7: for a `book_id` absent from the store, `POST /books/&lt;id&gt;/reviews`
returns 404 with the store and cache untouched (the existence check
short-circuits before any persistence side effect), and
`GET /books/&lt;id&gt;/reviews` returns 404; both messages end with
"not found". -/
theorem c7_unknown_book_404 (st : Store) (r : Redis) (now bid : Nat)
    (rdata : AddReviewReq) (h : st.getBook bid = Option.none) :
    add_book_review st r now bid rdata
      = (Resp.notFound ("Book with id " ++ natDecimal bid ++ " not found"), st, r) ∧
    (add_book_review st r now bid rdata).1.status = 404 ∧
    get_book_reviews st r now bid
      = (Resp.notFound ("Book with id " ++ natDecimal bid ++ " not found"), r) ∧
    (get_book_reviews st r now bid).1.status = 404 ∧
    (∃ p, (get_book_reviews st r now bid).1.message = p ++ " not found") := by
  have h1 : add_book_review st r now bid rdata
      = (Resp.notFound ("Book with id " ++ natDecimal bid ++ " not found"), st, r) := by
    unfold add_book_review
    rw [h]
  have h2 : get_book_reviews st r now bid
      = (Resp.notFound ("Book with id " ++ natDecimal bid ++ " not found"), r) := by
    unfold get_book_reviews
    rw [h]
  refine ⟨h1, by rw [h1]; rfl, h2, by rw [h2]; rfl,
    ⟨"Book with id " ++ natDecimal bid, ?_⟩⟩
  rw [h2]
  show "Book with id " ++ (natDecimal bid ++ " not found")
      = ("Book with id " ++ natDecimal bid) ++ " not found"
  rw [String.append_assoc]

theorem c7_witness :
    (⟨[], [], 1, 1⟩ : Store).getBook 999 = Option.none ∧
    (add_book_review ⟨[], [], 1, 1⟩ ⟨fun _ => Option.none, true⟩ 0 999
        ⟨some "R", some (.pInt 5), Option.none⟩).1.status = 404 ∧
    (get_book_reviews ⟨[], [], 1, 1⟩ ⟨fun _ => Option.none, true⟩ 0 999).1.status = 404 :=
  ⟨rfl,
   (c7_unknown_book_404 ⟨[], [], 1, 1⟩ ⟨fun _ => Option.none, true⟩ 0 999
      ⟨some "R", some (.pInt 5), Option.none⟩ rfl).2.1,
   (c7_unknown_book_404 ⟨[], [], 1, 1⟩ ⟨fun _ => Option.none, true⟩ 0 999
      ⟨some "R", some (.pInt 5), Option.none⟩ rfl).2.2.2.1⟩

/-- C10: `GET /books/&lt;id&gt;/reviews` consults the persistent store for the
book BEFORE touching the cache: an absent book yields 404 even when a
`reviews:book:&lt;id&gt;` cache entry exists, and every 200 response carries a
`book_title` taken from the store row, on both the cache-hit and the
database path. -/
theorem c10_store_checked_before_cache (st : Store) (r : Redis) (now bid : Nat) :
    (st.getBook bid = Option.none →
      ∀ e : CacheEntry, r.store (reviewsKey bid) = some e →
        (get_book_reviews st r now bid).1.status = 404) ∧
    (∀ book, st.getBook bid = some book →
      ∀ resp r2, get_book_reviews st r now bid = (resp, r2) →
        resp.status = 200 →
        ∃ body src, resp = Resp.okReviews bid book.title body src) := by
  constructor
  · intro h _ _
    unfold get_book_reviews
    rw [h]
    rfl
  · intro book hb resp r2 heq h200
    unfold get_book_reviews at heq
    rw [hb] at heq
    cases hc : get_from_cache r now (reviewsKey bid) with
    | error u =>
      rw [hc] at heq
      cases heq
      exact absurd h200 (by decide)
    | ok v =>
      cases v with
      | some cv =>
        rw [hc] at heq
        cases heq
        exact ⟨cv, "cache", rfl⟩
      | none =>
        rw [hc] at heq
        cases heq
        exact ⟨_, "database", rfl⟩

theorem c10_witness :
    (get_book_reviews ⟨[], [], 1, 1⟩
        ⟨fun _ => some ⟨CacheVal.reviews [], 100⟩, true⟩ 0 999).1.status = 404 ∧
    (∃ body src,
      (get_book_reviews ⟨[⟨1, "B", "A", Option.none, Option.none, 0⟩], [], 2, 1⟩
          ⟨fun _ => some ⟨CacheVal.reviews [], 100⟩, true⟩ 0 1).1
        = Resp.okReviews 1 "B" body src) :=
  ⟨(c10_store_checked_before_cache ⟨[], [], 1, 1⟩
      ⟨fun _ => some ⟨CacheVal.reviews [], 100⟩, true⟩ 0 999).1 rfl
      ⟨CacheVal.reviews [], 100⟩ rfl,
   (c10_store_checked_before_cache ⟨[⟨1, "B", "A", Option.none, Option.none, 0⟩], [], 2, 1⟩
      ⟨fun _ => some ⟨CacheVal.reviews [], 100⟩, true⟩ 0 1).2
      ⟨1, "B", "A", Option.none, Option.none, 0⟩ rfl _ _ rfl rfl⟩

/-- The review listing for one book is sorted descending by `created_at`
(`order_by(Review.created_at.desc())`). -/
theorem listReviewsForBook_sorted (st : Store) (bid : Nat) :
    (listReviewsForBook st bid).Pairwise (fun x y => y.created_at ≤ x.created_at) := by
  unfold listReviewsForBook
  refine List.Pairwise.imp ?_ (List.sorted_mergeSort ?_ ?_
    (st.reviews.filter (fun rv => rv.book_id == bid)))
  · intro a b hab
    exact of_decide_eq_true hab
  · intro a b c h1 h2
    simp only [decide_eq_true_eq] at h1 h2 ⊢
    omega
  · intro a b
    simp only [Bool.or_eq_true, decide_eq_true_eq]
    omega

/-- C9: for an existing book whose reviews are loaded from the store (a
cache miss), the 200 response carries the review list sorted by
`created_at` descending, newest first. -/
theorem c9_reviews_sorted_desc (st : Store) (r : Redis) (now bid : Nat)
    (book : Book) (hb : st.getBook bid = some book)
    (hmiss : get_from_cache r now (reviewsKey bid) = Except.ok Option.none) :
    (get_book_reviews st r now bid).1
      = Resp.okReviews bid book.title
          (CacheVal.reviews ((listReviewsForBook st bid).map Review.to_dict)) "database" ∧
    ((listReviewsForBook st bid).map Review.to_dict).Pairwise
      (fun x y => y.created_at ≤ x.created_at) := by
  constructor
  · unfold get_book_reviews
    rw [hb, hmiss]
  · rw [List.pairwise_map]
    exact (listReviewsForBook_sorted st bid).imp (fun h => h)

theorem c9_witness :
    (get_book_reviews
        ⟨[⟨1, "B", "A", Option.none, Option.none, 0⟩],
         [⟨1, 1, "R1", 5, Option.none, 10⟩, ⟨2, 1, "R2", 4, Option.none, 20⟩], 2, 3⟩
        ⟨fun _ => Option.none, true⟩ 0 1).1
      = Resp.okReviews 1 "B"
          (CacheVal.reviews ((listReviewsForBook
            ⟨[⟨1, "B", "A", Option.none, Option.none, 0⟩],
             [⟨1, 1, "R1", 5, Option.none, 10⟩, ⟨2, 1, "R2", 4, Option.none, 20⟩], 2, 3⟩
            1).map Review.to_dict)) "database" ∧
    ((listReviewsForBook
        ⟨[⟨1, "B", "A", Option.none, Option.none, 0⟩],
         [⟨1, 1, "R1", 5, Option.none, 10⟩, ⟨2, 1, "R2", 4, Option.none, 20⟩], 2, 3⟩
        1).map Review.to_dict).Pairwise
      (fun x y => y.created_at ≤ x.created_at) :=
  c9_reviews_sorted_desc
    ⟨[⟨1, "B", "A", Option.none, Option.none, 0⟩],
     [⟨1, 1, "R1", 5, Option.none, 10⟩, ⟨2, 1, "R2", 4, Option.none, 20⟩], 2, 3⟩
    ⟨fun _ => Option.none, true⟩ 0 1 ⟨1, "B", "A", Option.none, Option.none, 0⟩ rfl rfl

theorem get_books_hit (st : Store) (r : Redis) (now : Nat) (v : CacheVal)
    (h : get_from_cache r now booksAllKey = Except.ok (some v)) :
    get_books st r now = (Resp.okBooks v "cache", r) := by
  unfold get_books
  rw [h]

theorem get_books_miss (st : Store) (r : Redis) (now : Nat)
    (h : get_from_cache r now booksAllKey = Except.ok Option.none) :
    get_books st r now
      = (Resp.okBooks (CacheVal.books (st.books.map Book.to_dict)) "database",
         set_cache r now booksAllKey (CacheVal.books (st.books.map Book.to_dict)) 10) := by
  unfold get_books
  rw [h]

/-- Read flow of `GET /books` starting from a state whose `books:all` key
is absent: database source with repopulation at the fixed 10-unit expiry,
a cache hit with the same list inside the TTL window, and database again
once the entry has expired. -/
theorem get_books_flow (st1 : Store) (r1 : Redis) (t1 t2 t3 : Nat)
    (hreach : r1.reachable = true) (hmiss : r1.store booksAllKey = Option.none)
    (h2lt : t2 < t1 + 10) (h3ge : t1 + 10 ≤ t3) :
    get_books st1 r1 t1
      = (Resp.okBooks (CacheVal.books (st1.books.map Book.to_dict)) "database",
         set_cache r1 t1 booksAllKey (CacheVal.books (st1.books.map Book.to_dict)) 10) ∧
    (get_books st1 r1 t1).2.store booksAllKey
      = some ⟨CacheVal.books (st1.books.map Book.to_dict), t1 + 10⟩ ∧
    (get_books st1 (get_books st1 r1 t1).2 t2).1
      = Resp.okBooks (CacheVal.books (st1.books.map Book.to_dict)) "cache" ∧
    (get_books st1 (get_books st1 (get_books st1 r1 t1).2 t2).2 t3).1
      = Resp.okBooks (CacheVal.books (st1.books.map Book.to_dict)) "database" := by
  have hfc1 : get_from_cache r1 t1 booksAllKey = Except.ok Option.none := by
    unfold get_from_cache redisGet
    rw [hreach, hmiss]
    rfl
  have hg1 := get_books_miss st1 r1 t1 hfc1
  have hr2reach : (get_books st1 r1 t1).2.reachable = true := by
    rw [hg1]
    show (set_cache r1 t1 booksAllKey _ 10).reachable = true
    rw [set_cache_reachable]
    exact hreach
  have hr2store : (get_books st1 r1 t1).2.store booksAllKey
      = some ⟨CacheVal.books (st1.books.map Book.to_dict), t1 + 10⟩ := by
    rw [hg1]
    exact set_cache_hit r1 t1 booksAllKey _ 10 hreach
  have hfc2 : get_from_cache (get_books st1 r1 t1).2 t2 booksAllKey
      = Except.ok (some (CacheVal.books (st1.books.map Book.to_dict))) := by
    unfold get_from_cache redisGet
    rw [hr2reach, hr2store]
    simp [h2lt]
  have hg2 := get_books_hit st1 (get_books st1 r1 t1).2 t2
    (CacheVal.books (st1.books.map Book.to_dict)) hfc2
  have hfc3 : get_from_cache (get_books st1 (get_books st1 r1 t1).2 t2).2 t3 booksAllKey
      = Except.ok Option.none := by
    rw [hg2]
    show get_from_cache (get_books st1 r1 t1).2 t3 booksAllKey = _
    unfold get_from_cache redisGet
    rw [hr2reach, hr2store]
    have hnt : ¬ t3 < t1 + 10 := by omega
    simp [hnt]
  have hg3 := get_books_miss st1 (get_books st1 (get_books st1 r1 t1).2 t2).2 t3 hfc3
  exact ⟨hg1, hr2store, by rw [hg2], by rw [hg3]⟩

/-- C2: after a successful `POST /books` (which cleared `books:all`), the
next `GET /books` serves the stored books with `source="database"` and
repopulates the cache with the fixed 10-unit expiry; a second `GET /books`
within the TTL serves the same list with `source="cache"`; once the TTL
has expired a further `GET /books` is `source="database"` again. -/
theorem c2_cache_aside_scenario (st : Store) (r : Redis) (now t1 t2 t3 : Nat)
    (cy : Int) (data : AddBookReq)
    (hr : r.reachable = true)
    (hpost : (add_book st r now cy data).1.status = 201)
    (h2lt : t2 < t1 + 10) (h3ge : t1 + 10 ≤ t3) :
    get_books (add_book st r now cy data).2.1 (add_book st r now cy data).2.2 t1
      = (Resp.okBooks (CacheVal.books
            ((add_book st r now cy data).2.1.books.map Book.to_dict)) "database",
         set_cache (add_book st r now cy data).2.2 t1 booksAllKey
           (CacheVal.books ((add_book st r now cy data).2.1.books.map Book.to_dict)) 10) ∧
    (get_books (add_book st r now cy data).2.1 (add_book st r now cy data).2.2 t1).2.store booksAllKey
      = some ⟨CacheVal.books ((add_book st r now cy data).2.1.books.map Book.to_dict), t1 + 10⟩ ∧
    (get_books (add_book st r now cy data).2.1
        (get_books (add_book st r now cy data).2.1 (add_book st r now cy data).2.2 t1).2 t2).1
      = Resp.okBooks (CacheVal.books
          ((add_book st r now cy data).2.1.books.map Book.to_dict)) "cache" ∧
    (get_books (add_book st r now cy data).2.1
        (get_books (add_book st r now cy data).2.1
          (get_books (add_book st r now cy data).2.1 (add_book st r now cy data).2.2 t1).2 t2).2 t3).1
      = Resp.okBooks (CacheVal.books
          ((add_book st r now cy data).2.1.books.map Book.to_dict)) "database" := by
  obtain ⟨t, a, y, ht, ha, hy, heq⟩ := add_book_success_shape st r now cy data hpost
  have hreach : (add_book st r now cy data).2.2.reachable = true := by
    rw [heq]
    show (invalidate_cache r booksAllKey).reachable = true
    rw [invalidate_cache_reachable]
    exact hr
  have hmiss : (add_book st r now cy data).2.2.store booksAllKey = Option.none := by
    rw [heq]
    exact invalidate_cache_deletes r booksAllKey hr
  exact get_books_flow (add_book st r now cy data).2.1 (add_book st r now cy data).2.2
    t1 t2 t3 hreach hmiss h2lt h3ge

theorem c2_witness :
    (get_books (add_book store0 redis0 0 2026 bookReq0).2.1
        (add_book store0 redis0 0 2026 bookReq0).2.2 1).1
      = Resp.okBooks (CacheVal.books
          ((add_book store0 redis0 0 2026 bookReq0).2.1.books.map Book.to_dict)) "database" ∧
    (get_books (add_book store0 redis0 0 2026 bookReq0).2.1
        (add_book store0 redis0 0 2026 bookReq0).2.2 1).2.store booksAllKey
      = some ⟨CacheVal.books
          ((add_book store0 redis0 0 2026 bookReq0).2.1.books.map Book.to_dict), 1 + 10⟩ ∧
    (get_books (add_book store0 redis0 0 2026 bookReq0).2.1
        (get_books (add_book store0 redis0 0 2026 bookReq0).2.1
          (add_book store0 redis0 0 2026 bookReq0).2.2 1).2 5).1
      = Resp.okBooks (CacheVal.books
          ((add_book store0 redis0 0 2026 bookReq0).2.1.books.map Book.to_dict)) "cache" ∧
    (get_books (add_book store0 redis0 0 2026 bookReq0).2.1
        (get_books (add_book store0 redis0 0 2026 bookReq0).2.1
          (get_books (add_book store0 redis0 0 2026 bookReq0).2.1
            (add_book store0 redis0 0 2026 bookReq0).2.2 1).2 5).2 11).1
      = Resp.okBooks (CacheVal.books
          ((add_book store0 redis0 0 2026 bookReq0).2.1.books.map Book.to_dict)) "database" := by
  have h := c2_cache_aside_scenario store0 redis0 0 1 5 11 2026 bookReq0 rfl (by rfl)
    (by decide) (by decide)
  exact ⟨by rw [h.1], h.2.1, h.2.2.1, h.2.2.2⟩

/-- C3: writes invalidate exactly one key. A successful `POST /books`
deletes `books:all` and leaves every other key — in particular every
`reviews:book:*` key — untouched; a successful `POST /books/&lt;id&gt;/reviews`
deletes `reviews:book:&lt;id&gt;` and leaves every other key — in particular
`books:all` and the reviews key of every other book — untouched. -/
theorem c3_exact_key_invalidation (st : Store) (r : Redis) (now1 now2 : Nat)
    (cy : Int) (data : AddBookReq) (bid : Nat) (rdata : AddReviewReq)
    (hr : r.reachable = true)
    (h1 : (add_book st r now1 cy data).1.status = 201)
    (h2 : (add_book_review st r now2 bid rdata).1.status = 201) :
    ((add_book st r now1 cy data).2.2.store booksAllKey = Option.none ∧
     (∀ k, k ≠ booksAllKey → (add_book st r now1 cy data).2.2.store k = r.store k) ∧
     (∀ i, (add_book st r now1 cy data).2.2.store (reviewsKey i) = r.store (reviewsKey i))) ∧
    ((add_book_review st r now2 bid rdata).2.2.store (reviewsKey bid) = Option.none ∧
     (∀ k, k ≠ reviewsKey bid →
        (add_book_review st r now2 bid rdata).2.2.store k = r.store k) ∧
     (add_book_review st r now2 bid rdata).2.2.store booksAllKey = r.store booksAllKey ∧
     (∀ i, i ≠ bid →
        (add_book_review st r now2 bid rdata).2.2.store (reviewsKey i)
          = r.store (reviewsKey i))) := by
  obtain ⟨t, a, y, ht, ha, hy, heq⟩ := add_book_success_shape st r now1 cy data h1
  obtain ⟨book, name, rating, hbook, hname, heq2⟩ :=
    add_review_success_shape st r now2 bid rdata h2
  rw [heq, heq2]
  refine ⟨⟨?_, ?_, ?_⟩, ?_, ?_, ?_, ?_⟩
  · exact invalidate_cache_deletes r booksAllKey hr
  · intro k hk
    exact invalidate_cache_frame r booksAllKey k hk
  · intro i
    exact invalidate_cache_frame r booksAllKey (reviewsKey i)
      (fun hh => booksAllKey_ne_reviewsKey i hh.symm)
  · exact invalidate_cache_deletes r (reviewsKey bid) hr
  · intro k hk
    exact invalidate_cache_frame r (reviewsKey bid) k hk
  · exact invalidate_cache_frame r (reviewsKey bid) booksAllKey
      (booksAllKey_ne_reviewsKey bid)
  · intro i hi
    exact invalidate_cache_frame r (reviewsKey bid) (reviewsKey i)
      (fun hh => hi (reviewsKey_injective hh))

theorem c3_witness :
    (add_book store1 redis0 0 2026 bookReq0).2.2.store booksAllKey = Option.none ∧
    (add_book store1 redis0 0 2026 bookReq0).2.2.store (reviewsKey 7)
      = redis0.store (reviewsKey 7) ∧
    (add_book_review store1 redis0 0 1 reviewReq0).2.2.store (reviewsKey 1) = Option.none ∧
    (add_book_review store1 redis0 0 1 reviewReq0).2.2.store booksAllKey
      = redis0.store booksAllKey ∧
    (add_book_review store1 redis0 0 1 reviewReq0).2.2.store (reviewsKey 2)
      = redis0.store (reviewsKey 2) := by
  have h := c3_exact_key_invalidation store1 redis0 0 0 2026 bookReq0 1 reviewReq0
    rfl (by rfl) (by rfl)
  exact ⟨h.1.1, h.1.2.2 7, h.2.1, h.2.2.2.1, h.2.2.2.2 2 (by decide)⟩

/-- A rating outside the accepted shapes makes `reviewBodyCheck` fail
with a 400, whatever the reviewer-name field holds. -/
theorem reviewBodyCheck_bad {v : PyVal} (rn : Option String)
    (hbad : v.toIntConv = IntConv.valueError ∨ v.toIntConv = IntConv.typeError ∨
      ∃ y, v.toIntConv = IntConv.ok y ∧ (y < 1 ∨ y > 5)) :
    ∃ m, reviewBodyCheck rn (some v) = Except.error (Resp.badRequest m) := by
  have hr : ∃ m0, ratingOf v = Except.error (Resp.badRequest m0) := by
    unfold ratingOf
    rcases hbad with hc | hc | ⟨y, hy, hrange⟩
    · rw [hc]
      exact ⟨_, rfl⟩
    · rw [hc]
      exact ⟨_, rfl⟩
    · rw [hy]
      refine ⟨"Rating must be between 1 and 5", ?_⟩
      show (if y < 1 ∨ y > 5 then
          Except.error (Resp.badRequest "Rating must be between 1 and 5")
        else Except.ok y)
        = Except.error (Resp.badRequest "Rating must be between 1 and 5")
      rw [if_pos hrange]
  obtain ⟨m0, hm0⟩ := hr
  cases rn with
  | none => exact ⟨_, rfl⟩
  | some nm =>
    by_cases hblank : pyStrip nm = ""
    · refine ⟨"Reviewer name cannot be empty", ?_⟩
      show (if pyStrip nm = "" then
          (Except.error (Resp.badRequest "Reviewer name cannot be empty")
            : Except Resp (String × Int))
        else match ratingOf v with
          | Except.error e2 => Except.error e2
          | Except.ok rating => Except.ok (nm, rating))
        = Except.error (Resp.badRequest "Reviewer name cannot be empty")
      rw [if_pos hblank]
    · refine ⟨m0, ?_⟩
      show (if pyStrip nm = "" then
          (Except.error (Resp.badRequest "Reviewer name cannot be empty")
            : Except Resp (String × Int))
        else match ratingOf v with
          | Except.error e2 => Except.error e2
          | Except.ok rating => Except.ok (nm, rating))
        = Except.error (Resp.badRequest m0)
      rw [if_neg hblank, hm0]

theorem validateYearSome_bad {cy : Int} {v : PyVal}
    (ht : v.truthy = true)
    (hbad : v.toIntConv = IntConv.valueError ∨
      ∃ y, v.toIntConv = IntConv.ok y ∧ (y < 0 ∨ y > cy + 1)) :
    ∃ m, validateYearSome cy v = Except.error (Resp.badRequest m) := by
  unfold validateYearSome
  rw [if_pos ht]
  rcases hbad with hv | ⟨y, hy, hrange⟩
  · rw [hv]
    exact ⟨_, rfl⟩
  · rw [hy]
    refine ⟨"Invalid publication year", ?_⟩
    show (if y < 0 ∨ y > cy + 1 then
        Except.error (Resp.badRequest "Invalid publication year")
      else Except.ok (some (PyVal.pInt y)))
      = Except.error (Resp.badRequest "Invalid publication year")
    rw [if_pos hrange]

/-- A `publication_year` rejection makes `POST /books` a 400 that leaves
both the store and the cache untouched, whatever the other fields hold. -/
theorem add_book_year_reject (st : Store) (r : Redis) (now : Nat) (cy : Int)
    (data : AddBookReq) (hne : data.isEmptyDict = false) (m : String)
    (hm : validateYear cy data.publication_year = Except.error (Resp.badRequest m)) :
    (add_book st r now cy data).1.status = 400 ∧
    (add_book st r now cy data).2.1 = st ∧ (add_book st r now cy data).2.2 = r := by
  unfold add_book
  rw [hne]
  cases htt : requiredField "title" data.title with
  | error e =>
    obtain ⟨mt, rfl⟩ := requiredField_error htt
    exact ⟨rfl, rfl, rfl⟩
  | ok t =>
    cases hta : requiredField "author" data.author with
    | error e =>
      obtain ⟨ma, rfl⟩ := requiredField_error hta
      exact ⟨rfl, rfl, rfl⟩
    | ok a =>
      rw [hm]
      exact ⟨rfl, rfl, rfl⟩

/-- C5 counterexample: the claim demands a 400 for every non-integer
`publication_year`, but the handler passes the value through `int()`:
the STRING `"1999"` is not an integer yet the request succeeds with 201
and the book is persisted (in-range floats are likewise truncated and accepted). -/
theorem c5_counterexample :
    (add_book store0 redis0 0 2025
        ⟨some "T", some "A", Option.none, some (.pStr "1999")⟩).1.status = 201 ∧
    ¬ (add_book store0 redis0 0 2025
        ⟨some "T", some "A", Option.none, some (.pStr "1999")⟩).1.status = 400 ∧
    (add_book store0 redis0 0 2025
        ⟨some "T", some "A", Option.none, some (.pStr "1999")⟩).2.1.books.length = 1 := by
  refine ⟨rfl, ?_, rfl⟩
  intro hc
  have h2 : (201 : Nat) = 400 := hc
  exact absurd h2 (by decide)

/-- C5 (amended): for every `POST /books` whose `publication_year` is
present and truthy and either fails `int()` conversion with a
`ValueError` (a non-numeric string) or converts to an integer outside
`[0, currentYear+1]`, the response is 400 and nothing is persisted.
(Falsy values skip validation; `int()`-convertible values such as numeric
strings are accepted.) -/
theorem c5_amended_year_reject_400 (st : Store) (r : Redis) (now : Nat)
    (cy : Int) (data : AddBookReq) (v : PyVal)
    (hv : data.publication_year = some v) (ht : v.truthy = true)
    (hbad : v.toIntConv = IntConv.valueError ∨
      ∃ y, v.toIntConv = IntConv.ok y ∧ (y < 0 ∨ y > cy + 1)) :
    (add_book st r now cy data).1.status = 400 ∧
    (add_book st r now cy data).2.1 = st ∧
    (add_book st r now cy data).2.2 = r := by
  have hne : data.isEmptyDict = false := by
    unfold AddBookReq.isEmptyDict
    rw [hv]
    simp
  obtain ⟨m, hm⟩ := validateYearSome_bad ht hbad
  have hm2 : validateYear cy data.publication_year
      = Except.error (Resp.badRequest m) := by
    rw [hv]
    exact hm
  exact add_book_year_reject st r now cy data hne m hm2

theorem c5_witness :
    (add_book store0 redis0 0 2025
        ⟨some "T", some "A", Option.none, some (.pStr "abc")⟩).1.status = 400 ∧
    (add_book store0 redis0 0 2025
        ⟨some "T", some "A", Option.none, some (.pStr "abc")⟩).2.1 = store0 ∧
    (add_book store0 redis0 0 2025
        ⟨some "T", some "A", Option.none, some (.pInt 3000)⟩).1.status = 400 :=
  ⟨(c5_amended_year_reject_400 store0 redis0 0 2025
      ⟨some "T", some "A", Option.none, some (.pStr "abc")⟩ (.pStr "abc")
      rfl (by decide) (Or.inl (by decide))).1,
   (c5_amended_year_reject_400 store0 redis0 0 2025
      ⟨some "T", some "A", Option.none, some (.pStr "abc")⟩ (.pStr "abc")
      rfl (by decide) (Or.inl (by decide))).2.1,
   (c5_amended_year_reject_400 store0 redis0 0 2025
      ⟨some "T", some "A", Option.none, some (.pInt 3000)⟩ (.pInt 3000)
      rfl (by decide) (Or.inr ⟨3000, rfl, Or.inr (by decide)⟩)).1⟩

/-- C6 counterexample: the claim demands a 400 for every rating that is
not an integer in `[1,5]`, but `int()` accepts numeric strings: the
STRING `"3"` is not an integer yet the review is accepted with 201 and
persisted. -/
theorem c6_counterexample :
    (add_book_review store1 redis0 0 1
        ⟨some "R", some (.pStr "3"), Option.none⟩).1.status = 201 ∧
    ¬ (add_book_review store1 redis0 0 1
        ⟨some "R", some (.pStr "3"), Option.none⟩).1.status = 400 ∧
    (add_book_review store1 redis0 0 1
        ⟨some "R", some (.pStr "3"), Option.none⟩).2.1.reviews.length = 1 := by
  refine ⟨rfl, ?_, rfl⟩
  intro hc
  have h2 : (201 : Nat) = 400 := hc
  exact absurd h2 (by decide)

/-- C6 (amended): for a `POST /books/&lt;id&gt;/reviews` to an existing book
whose rating fails `int()` conversion (`ValueError` or `TypeError` — e.g.
`"abc"` or `null`) or converts to an integer outside `[1,5]` (e.g. 0, 6,
-1), the response is 400 and nothing is persisted. (`int()`-convertible
values such as the numeric string `"3"` are accepted.) -/
theorem c6_amended_bad_rating_400 (st : Store) (r : Redis) (now bid : Nat)
    (data : AddReviewReq) (book : Book) (hb : st.getBook bid = some book)
    (v : PyVal) (hv : data.rating = some v)
    (hbad : v.toIntConv = IntConv.valueError ∨ v.toIntConv = IntConv.typeError ∨
      ∃ y, v.toIntConv = IntConv.ok y ∧ (y < 1 ∨ y > 5)) :
    (add_book_review st r now bid data).1.status = 400 ∧
    (add_book_review st r now bid data).2.1 = st ∧
    (add_book_review st r now bid data).2.2 = r := by
  have hne : data.isEmptyDict = false := by
    unfold AddReviewReq.isEmptyDict
    rw [hv]
    simp
  obtain ⟨m, hm⟩ := reviewBodyCheck_bad data.reviewer_name hbad
  have hm2 : reviewBodyCheck data.reviewer_name data.rating
      = Except.error (Resp.badRequest m) := by
    rw [hv]
    exact hm
  unfold add_book_review
  rw [hb, hne, hm2]
  exact ⟨rfl, rfl, rfl⟩

theorem c6_witness :
    (add_book_review store1 redis0 0 1
        ⟨some "R", some (.pInt 6), Option.none⟩).1.status = 400 ∧
    (add_book_review store1 redis0 0 1
        ⟨some "R", some (.pInt 6), Option.none⟩).2.1 = store1 ∧
    (add_book_review store1 redis0 0 1
        ⟨some "R", some (.pStr "abc"), Option.none⟩).1.status = 400 :=
  ⟨(c6_amended_bad_rating_400 store1 redis0 0 1
      ⟨some "R", some (.pInt 6), Option.none⟩
      ⟨1, "B", "A", Option.none, Option.none, 0⟩ rfl (.pInt 6) rfl
      (Or.inr (Or.inr ⟨6, rfl, Or.inr (by decide)⟩))).1,
   (c6_amended_bad_rating_400 store1 redis0 0 1
      ⟨some "R", some (.pInt 6), Option.none⟩
      ⟨1, "B", "A", Option.none, Option.none, 0⟩ rfl (.pInt 6) rfl
      (Or.inr (Or.inr ⟨6, rfl, Or.inr (by decide)⟩))).2.1,
   (c6_amended_bad_rating_400 store1 redis0 0 1
      ⟨some "R", some (.pStr "abc"), Option.none⟩
      ⟨1, "B", "A", Option.none, Option.none, 0⟩ rfl (.pStr "abc") rfl
      (Or.inl (by decide))).1⟩

/-- C8 counterexample: the claim says the returned `BookView.isbn` equals
the SUBMITTED isbn, but the handler stores the stripped-or-NULL value of
the raw isbn: submitting `" X "` yields a book whose isbn is the different
string `"X"`. -/
theorem c8_counterexample :
    (add_book store0 redis0 0 2025
        ⟨some "T", some "A", some " X ", Option.none⟩).1
      = Resp.createdBook "Book added successfully"
          ⟨1, "T", "A", some "X", Option.none, 0⟩ ∧
    some "X" ≠ some " X " :=
  ⟨rfl, by decide⟩

/-- C8 (amended): for every `POST /books` that succeeds with 201, the
returned (and listed) `BookView` carries the submitted title and author
after trim, the submitted isbn AFTER TRIM — `null` when the isbn was
omitted or blank after trimming — and a `null` `publication_year` when
that field was omitted. -/
theorem c8_amended_round_trip (st : Store) (r : Redis) (now : Nat) (cy : Int)
    (data : AddBookReq)
    (h : (add_book st r now cy data).1.status = 201) :
    ∃ t a year,
      data.title = some t ∧ data.author = some a ∧
      validateYear cy data.publication_year = Except.ok year ∧
      (add_book st r now cy data).1
        = Resp.createdBook "Book added successfully"
            ⟨st.nextBookId, pyStrip t, pyStrip a,
              stripOrNone (data.isbn.getD ""), year, now⟩ ∧
      (data.isbn = Option.none → stripOrNone (data.isbn.getD "") = Option.none) ∧
      (∀ s, data.isbn = some s → pyStrip s ≠ "" →
        stripOrNone (data.isbn.getD "") = some (pyStrip s)) ∧
      (data.publication_year = Option.none → year = Option.none) ∧
      (⟨st.nextBookId, pyStrip t, pyStrip a,
          stripOrNone (data.isbn.getD ""), year, now⟩ : BookView)
        ∈ (add_book st r now cy data).2.1.books.map Book.to_dict := by
  obtain ⟨t, a, year, ht, ha, hy, heq⟩ := add_book_success_shape st r now cy data h
  obtain ⟨htt, _⟩ := requiredField_ok ht
  obtain ⟨haa, _⟩ := requiredField_ok ha
  refine ⟨t, a, year, htt, haa, hy, ?_, ?_, ?_, ?_, ?_⟩
  · rw [heq]
    rfl
  · intro hn
    rw [hn]
    rfl
  · intro s hs hns
    rw [hs]
    show stripOrNone s = some (pyStrip s)
    unfold stripOrNone
    rw [if_neg hns]
  · intro hn
    rw [hn] at hy
    exact validateYear_none hy
  · rw [heq]
    show (Book.to_dict ⟨st.nextBookId, pyStrip t, pyStrip a,
        stripOrNone (data.isbn.getD ""), year, now⟩)
      ∈ (st.books ++ [(⟨st.nextBookId, pyStrip t, pyStrip a,
          stripOrNone (data.isbn.getD ""), year, now⟩ : Book)]).map Book.to_dict
    exact List.mem_map_of_mem _ (List.mem_append_right _ (List.mem_singleton_self _))

theorem c8_witness :
    (add_book store0 redis0 0 2025
        ⟨some " T ", some "A", some " X ", Option.none⟩).1
      = Resp.createdBook "Book added successfully"
          ⟨1, "T", "A", some "X", Option.none, 0⟩ := by
  obtain ⟨t, a, year, ht, ha, hy, h1, h2, h3, h4, h5⟩ :=
    c8_amended_round_trip store0 redis0 0 2025
      ⟨some " T ", some "A", some " X ", Option.none⟩ rfl
  cases ht
  cases ha
  have hyn := validateYear_none hy
  subst hyn
  exact h1

/-- Duplicate pre-check path of `POST /books`: when some stored book
already carries exactly the submitted (raw, non-empty) isbn, the request
is rejected with the 400 whose message quotes that isbn, and nothing
changes. -/
theorem add_book_duplicate_reject (st : Store) (r : Redis) (now : Nat)
    (cy : Int) (d : AddBookReq) (s t a : String) (y : Option PyVal)
    (ht : requiredField "title" d.title = Except.ok t)
    (ha : requiredField "author" d.author = Except.ok a)
    (hy : validateYear cy d.publication_year = Except.ok y)
    (hi : d.isbn = some s) (hs : s ≠ "")
    (hdup : (st.books.any fun b => b.isbn == some s) = true) :
    add_book st r now cy d
      = (Resp.badRequest ("Book with ISBN \x27" ++ s ++ "\x27 already exists"), st, r) := by
  have hne : d.isEmptyDict = false := by
    unfold AddBookReq.isEmptyDict
    rw [hi]
    simp
  unfold add_book
  rw [hne, ht, ha, hy]
  show insertBook st r now t a y (d.isbn.getD "") = _
  rw [hi]
  show insertBook st r now t a y s = _
  unfold insertBook
  rw [if_pos ⟨hs, hdup⟩]

/-- Success path of `POST /books` for a fresh, non-empty,
whitespace-free isbn: the book is inserted with that isbn. -/
theorem add_book_fresh_isbn_success (st : Store) (r : Redis) (now : Nat)
    (cy : Int) (d : AddBookReq) (s t a : String) (y : Option PyVal)
    (ht : requiredField "title" d.title = Except.ok t)
    (ha : requiredField "author" d.author = Except.ok a)
    (hy : validateYear cy d.publication_year = Except.ok y)
    (hi : d.isbn = some s) (hs : s ≠ "") (hstrip : pyStrip s = s)
    (hany : (st.books.any fun b => b.isbn == some s) = false) :
    add_book st r now cy d
      = (Resp.createdBook "Book added successfully"
          (Book.to_dict ⟨st.nextBookId, pyStrip t, pyStrip a, some s, y, now⟩),
         ⟨st.books ++ [⟨st.nextBookId, pyStrip t, pyStrip a, some s, y, now⟩],
          st.reviews, st.nextBookId + 1, st.nextReviewId⟩,
         invalidate_cache r booksAllKey) := by
  have hne : d.isEmptyDict = false := by
    unfold AddBookReq.isEmptyDict
    rw [hi]
    simp
  have hso : stripOrNone s = some s := by
    unfold stripOrNone
    rw [hstrip, if_neg hs]
  have hc1 : ¬(s ≠ "" ∧ (st.books.any fun b => b.isbn == some s) = true) := by
    intro hcond
    rw [hany] at hcond
    exact absurd hcond.2 (by decide)
  have hc2 : ¬(isbnConflict st (stripOrNone s) = true) := by
    rw [hso]
    show ¬((st.books.any fun b => b.isbn == some s) = true)
    rw [hany]
    decide
  unfold add_book
  rw [hne, ht, ha, hy]
  show insertBook st r now t a y (d.isbn.getD "") = _
  rw [hi]
  show insertBook st r now t a y s = _
  unfold insertBook
  rw [if_neg hc1, if_neg hc2, hso]

/-- C4 counterexample: for the isbn `""` the duplicate pre-check is
skipped entirely (Python truthiness) and the stored isbn is NULL, so the
second identical `POST /books` also returns 201 — not the claimed 400 —
and NO book in the store carries the isbn `""`. -/
theorem c4_counterexample :
    (add_book (add_book store0 redis0 0 2026
          ⟨some "T", some "A", some "", Option.none⟩).2.1
        (add_book store0 redis0 0 2026
          ⟨some "T", some "A", some "", Option.none⟩).2.2
        1 2026 ⟨some "T", some "A", some "", Option.none⟩).1.status = 201 ∧
    ¬ (add_book (add_book store0 redis0 0 2026
          ⟨some "T", some "A", some "", Option.none⟩).2.1
        (add_book store0 redis0 0 2026
          ⟨some "T", some "A", some "", Option.none⟩).2.2
        1 2026 ⟨some "T", some "A", some "", Option.none⟩).1.status = 400 ∧
    ((add_book (add_book store0 redis0 0 2026
          ⟨some "T", some "A", some "", Option.none⟩).2.1
        (add_book store0 redis0 0 2026
          ⟨some "T", some "A", some "", Option.none⟩).2.2
        1 2026 ⟨some "T", some "A", some "", Option.none⟩).2.1.books.filter
      (fun b => b.isbn == some "")).length = 0 := by
  refine ⟨rfl, ?_, rfl⟩
  intro hc
  have h2 : (201 : Nat) = 400 := hc
  exact absurd h2 (by decide)

/-- C4 (amended): for every NON-EMPTY isbn with no surrounding whitespace
(`strip(s) = s`), starting from a store with no book carrying it, of two
otherwise-valid sequential `POST /books` bodies carrying that isbn the
first succeeds with 201 and the second fails with a 400 whose message
mentions the isbn, leaving exactly one book with that isbn. (An empty
isbn skips the pre-check and stores NULL; an isbn with surrounding
whitespace defeats the pre-check because it compares the raw value while
storage strips it.) -/
theorem c4_amended_duplicate_isbn (st : Store) (r : Redis) (n1 n2 : Nat)
    (cy1 cy2 : Int) (d1 d2 : AddBookReq) (s t1 a1 t2 a2 : String)
    (y1 y2 : Option PyVal)
    (ht1 : requiredField "title" d1.title = Except.ok t1)
    (ha1 : requiredField "author" d1.author = Except.ok a1)
    (hy1 : validateYear cy1 d1.publication_year = Except.ok y1)
    (ht2 : requiredField "title" d2.title = Except.ok t2)
    (ha2 : requiredField "author" d2.author = Except.ok a2)
    (hy2 : validateYear cy2 d2.publication_year = Except.ok y2)
    (hi1 : d1.isbn = some s) (hi2 : d2.isbn = some s)
    (hs : s ≠ "") (hstrip : pyStrip s = s)
    (hfresh : ∀ b ∈ st.books, b.isbn ≠ some s) :
    (add_book st r n1 cy1 d1).1.status = 201 ∧
    (add_book (add_book st r n1 cy1 d1).2.1
        (add_book st r n1 cy1 d1).2.2 n2 cy2 d2).1
      = Resp.badRequest ("Book with ISBN \x27" ++ s ++ "\x27 already exists") ∧
    (∃ p q, (add_book (add_book st r n1 cy1 d1).2.1
        (add_book st r n1 cy1 d1).2.2 n2 cy2 d2).1.message = p ++ s ++ q) ∧
    ((add_book (add_book st r n1 cy1 d1).2.1
        (add_book st r n1 cy1 d1).2.2 n2 cy2 d2).2.1.books.filter
      (fun b => b.isbn == some s)).length = 1 := by
  have hany1 : (st.books.any fun b => b.isbn == some s) = false := by
    rw [List.any_eq_false]
    intro b hb
    simp only [beq_iff_eq]
    exact hfresh b hb
  have hab1 := add_book_fresh_isbn_success st r n1 cy1 d1 s t1 a1 y1
    ht1 ha1 hy1 hi1 hs hstrip hany1
  have hst2 : (add_book st r n1 cy1 d1).2.1
      = (⟨st.books ++ [⟨st.nextBookId, pyStrip t1, pyStrip a1, some s, y1, n1⟩],
          st.reviews, st.nextBookId + 1, st.nextReviewId⟩ : Store) := by
    rw [hab1]
  have hr2 : (add_book st r n1 cy1 d1).2.2 = invalidate_cache r booksAllKey := by
    rw [hab1]
  have hdup2 : ((⟨st.books ++ [⟨st.nextBookId, pyStrip t1, pyStrip a1, some s, y1, n1⟩],
        st.reviews, st.nextBookId + 1, st.nextReviewId⟩ : Store).books.any
      fun b => b.isbn == some s) = true := by
    show ((st.books ++ [(⟨st.nextBookId, pyStrip t1, pyStrip a1, some s, y1, n1⟩ : Book)]).any
      fun b => b.isbn == some s) = true
    rw [List.any_eq_true]
    exact ⟨_, List.mem_append_right _ (List.mem_singleton_self _), by simp⟩
  have hab2 := add_book_duplicate_reject
    ⟨st.books ++ [⟨st.nextBookId, pyStrip t1, pyStrip a1, some s, y1, n1⟩],
     st.reviews, st.nextBookId + 1, st.nextReviewId⟩
    (invalidate_cache r booksAllKey) n2 cy2 d2 s t2 a2 y2
    ht2 ha2 hy2 hi2 hs hdup2
  refine ⟨?_, ?_, ?_, ?_⟩
  · rw [hab1]
    rfl
  · rw [hst2, hr2, hab2]
  · rw [hst2, hr2, hab2]
    exact ⟨"Book with ISBN \x27", "\x27 already exists", rfl⟩
  · rw [hst2, hr2, hab2]
    show ((st.books ++ [(⟨st.nextBookId, pyStrip t1, pyStrip a1, some s, y1, n1⟩ : Book)]).filter
        (fun b => b.isbn == some s)).length = 1
    rw [List.filter_append]
    have hnil : st.books.filter (fun b => b.isbn == some s) = [] := by
      rw [List.filter_eq_nil_iff]
      intro b hb
      simp only [beq_iff_eq]
      exact hfresh b hb
    rw [hnil]
    simp

theorem c4_witness :
    (add_book store0 redis0 0 2026
        ⟨some "T", some "A", some "123", Option.none⟩).1.status = 201 ∧
    (add_book (add_book store0 redis0 0 2026
          ⟨some "T2", some "A2", some "123", Option.none⟩).2.1
        (add_book store0 redis0 0 2026
          ⟨some "T2", some "A2", some "123", Option.none⟩).2.2
        1 2026 ⟨some "T2", some "A2", some "123", Option.none⟩).1
      = Resp.badRequest ("Book with ISBN \x27" ++ "123" ++ "\x27 already exists") := by
  have h := c4_amended_duplicate_isbn store0 redis0 0 1 2026 2026
    ⟨some "T2", some "A2", some "123", Option.none⟩
    ⟨some "T2", some "A2", some "123", Option.none⟩
    "123" "T2" "A2" "T2" "A2" Option.none Option.none
    rfl rfl rfl rfl rfl rfl rfl rfl (by decide) (by decide)
    (by intro b hb; cases hb)
  exact ⟨(c4_amended_duplicate_isbn store0 redis0 0 1 2026 2026
    ⟨some "T", some "A", some "123", Option.none⟩
    ⟨some "T", some "A", some "123", Option.none⟩
    "123" "T" "A" "T" "A" Option.none Option.none
    rfl rfl rfl rfl rfl rfl rfl rfl (by decide) (by decide)
    (by intro b hb; cases hb)).1, h.2.1⟩

end BookApp
